import Mathlib

/-!
Verification development for the bank-statement extraction tool (`src/app.py`).

The program has three logical components plus a caller-side interpreter:
the Encoder (`pdf_to_base64`), the Prompt Builder (`generate_openrouter_prompt`),
the Extraction Client (`call_openrouter_api`) and the caller-side result
interpretation (`pd.read_csv` / `df.to_csv` in the Streamlit layout code).
This file gives a shallow embedding of each of these and proves or refutes
the frozen claims about them.

Modelling conventions:
* bytes are `Nat` values below 256;
* Python `None`-or-string values are `Option String`, with Python truthiness
  (`None` and `""` are falsy) made explicit at each use site;
* the network and the Streamlit UI are effects: the client takes the network
  response as an oracle argument and returns the list of UI effects it emits;
* Python exceptions that escape a function are an `Except.error` result.
-/

set_option maxRecDepth 16384

namespace BankApp

/-! ## Encoder: `pdf_to_base64` (src/app.py lines 17-22)

The source calls `base64.b64encode(bytes_data).decode("utf-8")`.  We embed
standard base64 (RFC 4648) over byte lists; the `.decode("utf-8")` step is the
identity on the ASCII output of the encoder. -/

/-- The base64 alphabet used by `base64.b64encode`. -/
def b64chars : List Char :=
  ['A','B','C','D','E','F','G','H','I','J','K','L','M',
   'N','O','P','Q','R','S','T','U','V','W','X','Y','Z',
   'a','b','c','d','e','f','g','h','i','j','k','l','m',
   'n','o','p','q','r','s','t','u','v','w','x','y','z',
   '0','1','2','3','4','5','6','7','8','9','+','/']

/-- The character encoding a 6-bit group. -/
def sextetToChar (n : Nat) : Char := b64chars.getD n 'A'

/-- Index of a character in the base64 alphabet (first match). -/
def findIdx (c : Char) : List Char → Nat
  | [] => 0
  | d :: ds => if d = c then 0 else findIdx c ds + 1

/-- The 6-bit group a base64 character stands for. -/
def charToSextet (c : Char) : Nat := findIdx c b64chars

/-- Base64 encoding of a byte list, including `=` padding, as produced by
`base64.b64encode` in the source. -/
def b64encode : List Nat → List Char
  | [] => []
  | [a] =>
    [sextetToChar (a / 4), sextetToChar (a % 4 * 16), '=', '=']
  | [a, b] =>
    [sextetToChar (a / 4), sextetToChar (a % 4 * 16 + b / 16),
     sextetToChar (b % 16 * 4), '=']
  | a :: b :: c :: rest =>
    sextetToChar (a / 4) :: sextetToChar (a % 4 * 16 + b / 16) ::
    sextetToChar (b % 16 * 4 + c / 64) :: sextetToChar (c % 64) :: b64encode rest

/-- Modelled from the spec: decoding of one base64 quantum (the decoder is not
part of the source, which only encodes; the spec's round-trip invariant refers
to standard base64 decoding). -/
def decode4 (w x y z : Char) : List Nat :=
  if z = '=' then
    if y = '=' then [charToSextet w * 4 + charToSextet x / 16]
    else [charToSextet w * 4 + charToSextet x / 16,
          charToSextet x % 16 * 16 + charToSextet y / 4]
  else [charToSextet w * 4 + charToSextet x / 16,
        charToSextet x % 16 * 16 + charToSextet y / 4,
        charToSextet y % 4 * 64 + charToSextet z]

/-- Modelled from the spec: standard base64 decoding, quantum by quantum. -/
def b64decode : List Char → List Nat
  | w :: x :: y :: z :: rest => decode4 w x y z ++ b64decode rest
  | _ => []

/-- `pdf_to_base64` from src/app.py: `None` input yields `None`, otherwise the
base64 text of the file's bytes. -/
def pdf_to_base64 : Option (List Nat) → Option (List Char)
  | none => none
  | some bs => some (b64encode bs)

/-! ## Prompt Builder: `generate_openrouter_prompt` (src/app.py lines 24-60) -/

/-- The fixed system instruction from src/app.py lines 33-39 (Python
concatenation of adjacent string literals). -/
def system_prompt : String :=
  "You are an expert financial data analyst. Your task is to accurately " ++
  "extract all bank transactions from the provided PDF statement image. " ++
  "Your final output MUST be a CSV table with three columns: Date, Description, Amount. " ++
  "The Date must be in YYYY-MM-DD format. " ++
  "The Amount must be a number with two decimal places. Debits must be negative, Credits positive."

/-- The fixed user instruction from src/app.py lines 42-48, carrying the
asymmetric Fees rule. -/
def user_prompt : String :=
  "Process the attached bank statement. EXTRACT ALL individual transaction line items. " ++
  "CRITICAL INSTRUCTION: If the statement has a column specifically labeled 'Fees', " ++
  "DO NOT use the amounts from that dedicated column in the final 'Amount' column. " ++
  "However, INCLUDE any fee-related transactions (e.g., 'Service Fee', 'ATM Fee') " ++
  "that appear as a separate line item in the main debit/credit columns."

/-- One element of a multimodal user-message content list: either a text part
or a document reference (the source's `image_url` part with a data URL and a
`detail` hint). -/
inductive ContentPart
  | text (t : String)
  | imageUrl (url : String) (detail : String)
deriving DecidableEq

/-- A message body: either a plain string (the system message) or a list of
content parts (the user message). -/
inductive MsgContent
  | str (s : String)
  | parts (ps : List ContentPart)
deriving DecidableEq

/-- A role-tagged message block. -/
structure Message where
  role : String
  content : MsgContent
deriving DecidableEq

/-- `generate_openrouter_prompt` from src/app.py.  The Python argument can be
`None` or a string; `if not file_base64_string` is falsy exactly on `None` and
on the empty string. -/
def generate_openrouter_prompt : Option String → List Message
  | none => []
  | some s =>
    if s = "" then []
    else
      [⟨"system", .str system_prompt⟩,
       ⟨"user", .parts
         [.text user_prompt,
          .imageUrl ("data:application/pdf;base64," ++ s) "high"]⟩]

/-- Whether a content part is a document reference. -/
def partIsDocRef : ContentPart → Bool
  | .imageUrl _ _ => true
  | .text _ => false

/-- Number of document references in one message. -/
def msgDocRefs (m : Message) : Nat :=
  match m.content with
  | .str _ => 0
  | .parts ps => (ps.filter partIsDocRef).length

/-- Number of document references in a whole payload. -/
def docRefCount (msgs : List Message) : Nat := (msgs.map msgDocRefs).sum

/-! ## Extraction Client: `call_openrouter_api` (src/app.py lines 62-101)

The network is modelled as an oracle argument (the response the single
`requests.post` call would produce), the Streamlit UI calls as an emitted
effect list, and the JSON body as an inductive value.  A Python exception
escaping the function is an `Except.error` result; a normal return of the
Python value `None` is modelled as returning `Json.null`. -/

/-- A JSON value, as produced by `response.json()`.  Object keys are strings
(Python's `json` module only produces `str` dictionary keys). -/
inductive Json
  | null
  | bool (b : Bool)
  | num (n : Int)
  | str (s : String)
  | arr (xs : List Json)
  | obj (fields : List (String × Json))

/-- The Python exceptions that can escape or be caught around the response
parsing (`requests.exceptions.RequestException` is handled separately via the
network oracle). -/
inductive PyExc
  | keyError
  | indexError
  | typeError
deriving DecidableEq

/-- Outcome of the single `requests.post` call: a response with a status code
and a JSON body, or a raised `requests.exceptions.RequestException`. -/
inductive NetResult
  | response (status : Nat) (body : Json)
  | netError (cause : String)

/-- Observable side effects of the client: the outbound HTTP POST and the
Streamlit `st.error` / `st.info` / `st.json` calls. -/
inductive Effect
  | httpPost (url : String)
  | errorMsg (s : String)
  | infoMsg (s : String)
  | jsonDump (j : Json)

/-- Python subscripting `j["k"]` with a string key: a dictionary lookup
(`KeyError` when absent); every other JSON value raises `TypeError`. -/
def getItemStr : Json → String → Except PyExc Json
  | .obj fields, k =>
    match fields.lookup k with
    | some v => .ok v
    | none => .error .keyError
  | _, _ => .error .typeError

/-- Python subscripting `j[0]`: list indexing (`IndexError` when empty),
string indexing, a `KeyError` on a JSON-derived dictionary (whose keys are all
strings, so the integer key `0` is absent), `TypeError` otherwise. -/
def getItemZero : Json → Except PyExc Json
  | .arr [] => .error .indexError
  | .arr (x :: _) => .ok x
  | .obj _ => .error .keyError
  | .str s => if s = "" then .error .indexError else .ok (.str (String.singleton s.front))
  | _ => .error .typeError

/-- The access path `response_json["choices"][0]["message"]["content"]` from
src/app.py line 92, with Python subscript semantics. -/
def extractContent (body : Json) : Except PyExc Json := do
  let choices ← getItemStr body "choices"
  let first ← getItemZero choices
  let message ← getItemStr first "message"
  getItemStr message "content"

/-- The fixed completion endpoint URL. -/
def openrouterUrl : String := "https://openrouter.ai/api/v1/chat/completions"

/-- `st.error` text on a missing credential (src/app.py line 65). -/
def configErrorMsg : String :=
  "OpenRouter API Key not found. Please set the OPENROUTER_API_KEY in your Streamlit secrets."

/-- `st.error` text on a failed request (src/app.py line 95); the cause string
of the caught `RequestException` is interpolated. -/
def transportErrorMsg (cause : String) : String :=
  "OpenRouter API Request Failed: " ++ cause

/-- `st.info` text accompanying a transport error (src/app.py line 96). -/
def transportInfoMsg : String :=
  "Check if your API key is valid, the model is correct, or if you have hit a rate limit."

/-- `st.error` text on an unexpected response shape (src/app.py line 99). -/
def shapeErrorMsg : String :=
  "Error parsing OpenRouter response. The model may have returned an error or an unexpected format."

/-- The cause string carried by the `requests.exceptions.HTTPError` that
`raise_for_status` raises for a 4xx/5xx status (the status code is part of the
exception's message). -/
def httpErrorCause (status : Nat) : String :=
  toString status ++ (if status < 500 then " Client Error" else " Server Error")

/-- Result of one client invocation: the returned value or escaped exception,
plus the emitted effects in order. -/
structure CallResult where
  retval : Except PyExc Json
  effects : List Effect

/-- `call_openrouter_api` from src/app.py lines 62-101.

* `apiKey` models `os.environ.get("OPENROUTER_API_KEY")` (`None` when unset);
  `if not OPENROUTER_API_KEY` is falsy on `None` and on `""`, and in that case
  the function returns before any request is attempted.
* Otherwise exactly one POST is issued.  A raised `RequestException` is caught
  (`None` returned).  `response.raise_for_status()` raises `HTTPError` — a
  `RequestException`, likewise caught — exactly for statuses 400-599.
* Otherwise the body is dug into with
  `response_json["choices"][0]["message"]["content"]`; only `KeyError` is
  caught there (returning `None` after dumping the body), while `IndexError`
  and `TypeError` escape the function. -/
def call_openrouter_api (apiKey : Option String) (net : NetResult) : CallResult :=
  match apiKey with
  | none => ⟨.ok .null, [.errorMsg configErrorMsg]⟩
  | some k =>
    if k = "" then ⟨.ok .null, [.errorMsg configErrorMsg]⟩
    else
      match net with
      | .netError cause =>
        ⟨.ok .null,
         [.httpPost openrouterUrl, .errorMsg (transportErrorMsg cause),
          .infoMsg transportInfoMsg]⟩
      | .response status body =>
        if 400 ≤ status ∧ status < 600 then
          ⟨.ok .null,
           [.httpPost openrouterUrl,
            .errorMsg (transportErrorMsg (httpErrorCause status)),
            .infoMsg transportInfoMsg]⟩
        else
          match extractContent body with
          | .ok v => ⟨.ok v, [.httpPost openrouterUrl]⟩
          | .error .keyError =>
            ⟨.ok .null,
             [.httpPost openrouterUrl, .errorMsg shapeErrorMsg, .jsonDump body]⟩
          | .error e => ⟨.error e, [.httpPost openrouterUrl]⟩

/-! ## Result interpretation: `pd.read_csv` / `df.to_csv` (src/app.py lines 126-145)

The caller parses the returned text with `pd.read_csv` and re-serializes it
with `df.to_csv(index=False)`.  Both are library calls whose documented
default behaviour we model for the inputs this tool handles:

* lines are split on newlines, blank lines are skipped, fields are split on
  commas (quoting is not modelled: fields produced by splitting contain no
  delimiter, and the claims' inputs contain no quote characters);
* a data row with more fields than the header is a parser error
  (`pandas.errors.ParserError`); a row with fewer fields is padded with
  missing values (modelled as empty cells); an input with no non-blank lines
  is `pandas.errors.EmptyDataError`;
* a column whose cells are all integer literals is typed `int64`; otherwise a
  column whose cells are all decimal literals or empty is typed `float64`;
  otherwise it is kept as text.  On `to_csv`, numeric columns are printed from
  their parsed values (Python `str()` of the number: trailing zeros beyond one
  fractional digit are not preserved), text columns verbatim, missing values
  as empty cells.  The model covers the plain-decimal regime (no exponent
  notation, no `inf`/`nan` literals, no thousands separators). -/

/-- Split a character list on a separator (the separator is consumed). -/
def splitOnChar (sep : Char) : List Char → List (List Char)
  | [] => [[]]
  | c :: r =>
    if c = sep then [] :: splitOnChar sep r
    else
      match splitOnChar sep r with
      | [] => [[c]]
      | h :: t => (c :: h) :: t

/-- The decimal digit character for a digit value. -/
def digitChar (d : Nat) : Char := Char.ofNat (48 + d)

/-- Numeric value of a big-endian list of digit characters. -/
def digitsVal (l : List Char) : Nat :=
  l.foldl (fun a c => a * 10 + (c.toNat - 48)) 0

/-- Little-endian decimal digit characters of a positive number, with an
explicit fuel argument for structural recursion. -/
def natDecAux : Nat → Nat → List Char
  | 0, _ => []
  | _ + 1, 0 => []
  | fuel + 1, n + 1 => digitChar ((n + 1) % 10) :: natDecAux fuel ((n + 1) / 10)

/-- Big-endian decimal digit characters of a natural number. -/
def natDec (n : Nat) : List Char :=
  if n = 0 then ['0'] else (natDecAux n n).reverse

/-- Pad a digit list on the left with zeros up to width `e`. -/
def padLeft (e : Nat) (l : List Char) : List Char :=
  List.replicate (e - l.length) '0' ++ l

/-- A finite decimal value as a `float64` holds one in the plain-decimal
regime: sign, mantissa and scale, denoting `(-1)^neg * m / 10^e`.  The sign
is kept separately so that negative zero (`-0.0`) is representable, as it is
for `float64`. -/
structure DecVal where
  neg : Bool
  m : Nat
  e : Nat
deriving DecidableEq

/-- A `DecVal` is canonical when its mantissa carries no trailing zero that
the scale could absorb; parsed values are canonical and printing uses the
canonical form (this is the float64 shortest-representation normalization:
`str(float("1500.00"))` is `"1500.0"`). -/
def DecVal.canonical (v : DecVal) : Prop := v.e = 0 ∨ ¬(10 ∣ v.m)

/-- Strip trailing zeros of the mantissa into the scale. -/
def normPair : Nat → Nat → Nat × Nat
  | m, 0 => (m, 0)
  | m, e + 1 => if m % 10 = 0 then normPair (m / 10) e else (m, e + 1)

/-- Build the canonical `DecVal` for `(-1)^neg * m / 10^e`. -/
def mkNorm (neg : Bool) (m e : Nat) : DecVal :=
  ⟨neg, (normPair m e).1, (normPair m e).2⟩

/-- The rational value of a `DecVal`. -/
def DecVal.toRat (v : DecVal) : ℚ :=
  (if v.neg then -1 else 1) * (v.m : ℚ) / (10 : ℚ) ^ v.e

/-- Strip an optional leading sign, returning whether it was `-`. -/
def splitSign : List Char → Bool × List Char
  | [] => (false, [])
  | c :: r =>
    if c = '-' then (true, r)
    else if c = '+' then (false, r)
    else (false, c :: r)

/-- Split around the unique dot, if any. -/
def splitDot : List Char → Option (List Char × List Char)
  | [] => none
  | c :: r =>
    if c = '.' then (if '.' ∈ r then none else some ([], r))
    else
      match splitDot r with
      | some (a, b) => some (c :: a, b)
      | none => none

/-- The part of decimal parsing after the optional sign: digits with at most
one dot, at least one digit. -/
def parseFloatTail (neg : Bool) (rest : List Char) : Option DecVal :=
  if rest ≠ [] ∧ rest.all Char.isDigit then
    some ⟨neg, digitsVal rest, 0⟩
  else
    match splitDot rest with
    | some (a, b) =>
      if (a ++ b) ≠ [] ∧ (a ++ b).all Char.isDigit then
        some (mkNorm neg (digitsVal (a ++ b)) b.length)
      else none
    | none => none

/-- Parse a decimal literal the way `float()` (and pandas numeric inference)
accepts it in the plain-decimal regime: optional sign, digits with at most one
dot, at least one digit.  The result is canonical. -/
def parseFloatChars (l : List Char) : Option DecVal :=
  parseFloatTail (splitSign l).1 (splitSign l).2

/-- The part of integer parsing after the optional sign: at least one digit. -/
def parseIntTail (neg : Bool) (rest : List Char) : Option Int :=
  if rest ≠ [] ∧ rest.all Char.isDigit then
    some (if neg then -(digitsVal rest : Int) else (digitsVal rest : Int))
  else none

/-- Parse an integer literal the way `int()` (and pandas `int64` inference)
accepts it: optional sign, at least one digit. -/
def parseIntChars (l : List Char) : Option Int :=
  parseIntTail (splitSign l).1 (splitSign l).2

/-- The unsigned part of Python `str()` of a float in the plain-decimal
regime: integer part, dot, at least one fractional digit. -/
def floatBody (n e : Nat) : List Char :=
  if e = 0 then natDec n ++ ['.', '0']
  else natDec (n / 10 ^ e) ++ '.' :: padLeft e (natDec (n % 10 ^ e))

/-- Python `str()` of a float in the plain-decimal regime. -/
def printFloat (v : DecVal) : List Char :=
  (if v.neg then ['-'] else []) ++ floatBody v.m v.e

/-- Python `str()` of an int. -/
def printInt (i : Int) : List Char :=
  if i < 0 then '-' :: natDec i.natAbs else natDec i.natAbs

/-- A missing value: `pd.read_csv` turns an empty field into NaN, which
`to_csv` writes back as an empty field. -/
def isNaCell (c : String) : Bool := c = ""

/-- Whether a cell is an integer literal. -/
def isIntCell (c : String) : Bool := (parseIntChars c.data).isSome

/-- Whether a cell is a decimal literal. -/
def isFloatCell (c : String) : Bool := (parseFloatChars c.data).isSome

/-- The cells of column `j` (rows are already padded to header width). -/
def colCells (rows : List (List String)) (j : Nat) : List String :=
  rows.map (fun r => r.getD j "")

/-- pandas `int64` column inference: every cell an integer literal. -/
def colIsInt (rows : List (List String)) (j : Nat) : Bool :=
  !rows.isEmpty && (colCells rows j).all isIntCell

/-- pandas `float64` column inference: every cell a decimal literal or
missing. -/
def colIsFloat (rows : List (List String)) (j : Nat) : Bool :=
  (colCells rows j).all (fun c => isNaCell c || isFloatCell c)

/-- How `to_csv` writes one cell of an `int64` column. -/
def intCellOut (c : String) : String :=
  match parseIntChars c.data with
  | some i => ⟨printInt i⟩
  | none => c

/-- How `to_csv` writes one cell of a `float64` column (missing values become
empty fields). -/
def floatCellOut (c : String) : String :=
  match parseFloatChars c.data with
  | some v => ⟨printFloat v⟩
  | none => ""

/-- How `to_csv` writes one cell, depending on the inferred column type. -/
def cellOut (rows : List (List String)) (j : Nat) (c : String) : String :=
  if colIsInt rows j then intCellOut c
  else if colIsFloat rows j then floatCellOut c
  else c

/-- The parsed tabular result: header names plus padded rows of raw cells
(the inferred column types are functions of the rows, above). -/
structure DataFrame where
  header : List String
  rows : List (List String)
deriving DecidableEq

/-- The pandas exceptions `pd.read_csv` raises on this tool's inputs, all
caught by the caller's `except Exception` (src/app.py line 144). -/
inductive CsvError
  | emptyData
  | parserError
deriving DecidableEq

/-- The `pd.read_csv(BytesIO(csv_output.encode("utf-8")))` call from
src/app.py line 132, on the documented default configuration (see the section
comment).  The first non-blank line is the header; a later row with more
fields than the header raises `ParserError`; shorter rows are padded with
missing values. -/
def interpret (raw : String) : Except CsvError DataFrame :=
  match (splitOnChar '\n' raw.data).filter (fun l => !l.isEmpty) with
  | [] => .error .emptyData
  | h :: rest =>
    let header := (splitOnChar ',' h).map String.mk
    let rowsF := rest.map (fun l => (splitOnChar ',' l).map String.mk)
    if rowsF.all (fun r => r.length ≤ header.length) then
      .ok ⟨header, rowsF.map (fun r => r ++ List.replicate (header.length - r.length) "")⟩
    else .error .parserError

/-- Join fields with commas. -/
def joinComma : List String → String
  | [] => ""
  | [c] => c
  | c :: cs => c ++ "," ++ joinComma cs

/-- Write out the cells of one row, tracking the column index. -/
def cellsOutFrom (rows : List (List String)) : Nat → List String → List String
  | _, [] => []
  | j, c :: cs => cellOut rows j c :: cellsOutFrom rows (j + 1) cs

/-- Write out all rows (the first argument is the full row list, fixing the
column types). -/
def rowsOut (rows : List (List String)) : List (List String) → String
  | [] => ""
  | r :: rs => joinComma (cellsOutFrom rows 0 r) ++ "\n" ++ rowsOut rows rs

/-- The `df.to_csv(index=False)` call from src/app.py line 137: header line,
then each row, every line terminated by a newline, no index column. -/
def to_csv (df : DataFrame) : String :=
  joinComma df.header ++ "\n" ++ rowsOut df.rows df.rows

/-- Streamlit effects emitted by the result-display block
(src/app.py lines 126-145). -/
inductive UiEffect
  | subheader (s : String)
  | codeBlock (s : String)
  | dataframeView (df : DataFrame)
  | downloadButton (fileName : String) (data : String)
  | warning (s : String)
deriving DecidableEq

/-- The message text of the modelled pandas exceptions. -/
def csvErrorText : CsvError → String
  | .emptyData => "No columns to parse from file"
  | .parserError => "Error tokenizing data"

/-- The fixed prefix of the `st.warning` text (src/app.py line 145); the
caught exception's text is interpolated after it. -/
def warnPrefix : String :=
  "Could not convert AI output to DataFrame. Raw output may still be usable. Error: "

/-- The caller-side result handling, src/app.py lines 126-145: on a truthy
`csv_output` the raw text is always displayed; the parse is attempted inside
`try`, a success shows the table and offers the re-serialized download, and
any exception is reported as a warning without aborting. -/
def render_results (fileName : String) (csv_output : String) : List UiEffect :=
  if csv_output = "" then []
  else
    .subheader "Extracted Transactions (CSV Format)" :: .codeBlock csv_output ::
    match interpret csv_output with
    | .ok df =>
      [.subheader "Transaction Table", .dataframeView df,
       .downloadButton ("transactions_" ++ fileName.replace ".pdf" "" ++ "_OpenRouter.csv")
         (to_csv df)]
    | .error e => [.warning (warnPrefix ++ csvErrorText e)]

/-! ## Base64 round-trip lemmas -/

theorem charToSextet_sextetToChar : ∀ n < 64, charToSextet (sextetToChar n) = n := by
  decide

theorem sextetToChar_ne_pad : ∀ n < 64, sextetToChar n ≠ '=' := by
  decide

theorem decode4_enc1 (a : Nat) (ha : a < 256) :
    decode4 (sextetToChar (a / 4)) (sextetToChar (a % 4 * 16)) '=' '=' = [a] := by
  unfold decode4
  rw [if_pos rfl, if_pos rfl,
    charToSextet_sextetToChar (a / 4) (by omega),
    charToSextet_sextetToChar (a % 4 * 16) (by omega)]
  have e1 : a / 4 * 4 + a % 4 * 16 / 16 = a := by omega
  rw [e1]

theorem decode4_enc2 (a b : Nat) (ha : a < 256) (hb : b < 256) :
    decode4 (sextetToChar (a / 4)) (sextetToChar (a % 4 * 16 + b / 16))
      (sextetToChar (b % 16 * 4)) '=' = [a, b] := by
  unfold decode4
  rw [if_pos rfl, if_neg (sextetToChar_ne_pad (b % 16 * 4) (by omega)),
    charToSextet_sextetToChar (a / 4) (by omega),
    charToSextet_sextetToChar (a % 4 * 16 + b / 16) (by omega),
    charToSextet_sextetToChar (b % 16 * 4) (by omega)]
  have e1 : a / 4 * 4 + (a % 4 * 16 + b / 16) / 16 = a := by omega
  have e2 : (a % 4 * 16 + b / 16) % 16 * 16 + b % 16 * 4 / 4 = b := by omega
  rw [e1, e2]

theorem decode4_enc3 (a b c : Nat) (ha : a < 256) (hb : b < 256) (hc : c < 256) :
    decode4 (sextetToChar (a / 4)) (sextetToChar (a % 4 * 16 + b / 16))
      (sextetToChar (b % 16 * 4 + c / 64)) (sextetToChar (c % 64)) = [a, b, c] := by
  unfold decode4
  rw [if_neg (sextetToChar_ne_pad (c % 64) (by omega)),
    charToSextet_sextetToChar (a / 4) (by omega),
    charToSextet_sextetToChar (a % 4 * 16 + b / 16) (by omega),
    charToSextet_sextetToChar (b % 16 * 4 + c / 64) (by omega),
    charToSextet_sextetToChar (c % 64) (by omega)]
  have e1 : a / 4 * 4 + (a % 4 * 16 + b / 16) / 16 = a := by omega
  have e2 : (a % 4 * 16 + b / 16) % 16 * 16 + (b % 16 * 4 + c / 64) / 4 = b := by omega
  have e3 : (b % 16 * 4 + c / 64) % 4 * 64 + c % 64 = c := by omega
  rw [e1, e2, e3]

theorem b64_roundtrip (bs : List Nat) (h : ∀ b ∈ bs, b < 256) :
    b64decode (b64encode bs) = bs := by
  induction bs using b64encode.induct with
  | case1 => rfl
  | case2 a =>
    have ha : a < 256 := h a (by simp)
    rw [b64encode, b64decode, decode4_enc1 a ha]
    rfl
  | case3 a b =>
    have ha : a < 256 := h a (by simp)
    have hb : b < 256 := h b (by simp)
    rw [b64encode, b64decode, decode4_enc2 a b ha hb]
    rfl
  | case4 a b c rest ih =>
    have ha : a < 256 := h a (by simp)
    have hb : b < 256 := h b (by simp)
    have hc : c < 256 := h c (by simp)
    have hrest : ∀ x ∈ rest, x < 256 := by
      intro x hx; exact h x (by simp [hx])
    rw [b64encode, b64decode, decode4_enc3 a b c ha hb hc, ih hrest]
    rfl

/-! ## Decimal printing and parsing lemmas -/

theorem digitsVal_foldl (i : Nat) (l : List Char) :
    l.foldl (fun a c => a * 10 + (c.toNat - 48)) i = i * 10 ^ l.length + digitsVal l := by
  induction l generalizing i with
  | nil => simp [digitsVal]
  | cons c t ih =>
    have h1 : (c :: t).foldl (fun a c => a * 10 + (c.toNat - 48)) i
        = t.foldl (fun a c => a * 10 + (c.toNat - 48)) (i * 10 + (c.toNat - 48)) := rfl
    have h2 : digitsVal (c :: t)
        = t.foldl (fun a c => a * 10 + (c.toNat - 48)) (0 * 10 + (c.toNat - 48)) := rfl
    rw [h1, ih, h2, ih, List.length_cons]
    ring

theorem digitsVal_append (l1 l2 : List Char) :
    digitsVal (l1 ++ l2) = digitsVal l1 * 10 ^ l2.length + digitsVal l2 := by
  show (l1 ++ l2).foldl _ 0 = _
  rw [List.foldl_append, digitsVal_foldl]
  rfl

theorem digitsVal_replicate_zero (k : Nat) : digitsVal (List.replicate k '0') = 0 := by
  induction k with
  | zero => rfl
  | succ n ih => rw [List.replicate_succ]; exact ih

theorem digitChar_val : ∀ d < 10, (digitChar d).toNat - 48 = d := by decide

theorem digitChar_isDigit : ∀ d < 10, (digitChar d).isDigit = true := by decide

theorem digitsVal_rev_map (ds : List Nat) (h : ∀ d ∈ ds, d < 10) :
    digitsVal ((ds.map digitChar).reverse) = Nat.ofDigits 10 ds := by
  induction ds with
  | nil => rfl
  | cons d t ih =>
    have hd : d < 10 := h d (by simp)
    have hdt : ∀ x ∈ t, x < 10 := fun x hx => h x (by simp [hx])
    rw [List.map_cons, List.reverse_cons, digitsVal_append, ih hdt]
    have hone : digitsVal [digitChar d] = d := by
      show 0 * 10 + ((digitChar d).toNat - 48) = d
      rw [digitChar_val d hd]
      omega
    rw [hone, Nat.ofDigits_cons]
    simp [pow_succ]
    ring

theorem natDecAux_eq (fuel n : Nat) (h : n ≤ fuel) :
    natDecAux fuel n = (Nat.digits 10 n).map digitChar := by
  induction fuel generalizing n with
  | zero =>
    obtain rfl : n = 0 := by omega
    simp [natDecAux, Nat.digits_zero]
  | succ f ih =>
    cases n with
    | zero => simp [natDecAux, Nat.digits_zero]
    | succ m =>
      show digitChar ((m + 1) % 10) :: natDecAux f ((m + 1) / 10) = _
      rw [ih ((m + 1) / 10) (by omega),
        Nat.digits_def' (by norm_num : (1 : ℕ) < 10) (Nat.succ_pos m), List.map_cons]

theorem natDec_eq_digits (n : Nat) :
    natDec n = if n = 0 then ['0'] else ((Nat.digits 10 n).map digitChar).reverse := by
  rw [natDec]
  split
  · rfl
  · rw [natDecAux_eq n n le_rfl]

theorem digitsVal_natDec (n : Nat) : digitsVal (natDec n) = n := by
  rw [natDec_eq_digits]
  split
  · rename_i h; rw [h]; rfl
  · rw [digitsVal_rev_map _ (fun d hd => Nat.digits_lt_base (by norm_num) hd)]
    exact Nat.ofDigits_digits 10 n

theorem natDec_ne_nil (n : Nat) : natDec n ≠ [] := by
  rw [natDec_eq_digits]
  split
  · simp
  · simp [Nat.digits_ne_nil_iff_ne_zero, *]

theorem natDec_all_digits (n : Nat) : (natDec n).all Char.isDigit = true := by
  rw [natDec_eq_digits]
  split
  · rfl
  · rw [List.all_reverse]
    refine List.all_eq_true.mpr ?_
    intro x hx
    rcases List.mem_map.mp hx with ⟨d, hd, rfl⟩
    exact digitChar_isDigit d (Nat.digits_lt_base (by norm_num) hd)

theorem natDec_length_le (n e : Nat) (he : 1 ≤ e) (h : n < 10 ^ e) :
    (natDec n).length ≤ e := by
  rw [natDec_eq_digits]
  split
  · simpa using he
  · rename_i hn
    rw [List.length_reverse, List.length_map, Nat.digits_len 10 n (by norm_num) hn]
    have := Nat.log_lt_of_lt_pow hn h
    omega

theorem not_digit_not_mem {l : List Char} (h : l.all Char.isDigit = true)
    {c : Char} (hc : c.isDigit = false) : c ∉ l := by
  intro hm
  have := List.all_eq_true.mp h c hm
  rw [hc] at this
  cases this

theorem splitSign_neg (l : List Char) : splitSign ('-' :: l) = (true, l) := by
  simp [splitSign]

theorem splitSign_digit (c : Char) (l : List Char) (h : c.isDigit = true) :
    splitSign (c :: l) = (false, c :: l) := by
  have h1 : c ≠ '-' := by rintro rfl; exact absurd h (by decide)
  have h2 : c ≠ '+' := by rintro rfl; exact absurd h (by decide)
  simp [splitSign, h1, h2]

theorem splitDot_append (a b : List Char) (ha : '.' ∉ a) (hb : '.' ∉ b) :
    splitDot (a ++ '.' :: b) = some (a, b) := by
  induction a with
  | nil =>
    show splitDot ('.' :: b) = some ([], b)
    simp [splitDot, hb]
  | cons c t ih =>
    have hc : c ≠ '.' := fun hcc => ha (by simp [hcc])
    have ht : '.' ∉ t := fun m => ha (by simp [m])
    show splitDot (c :: (t ++ '.' :: b)) = _
    rw [splitDot, if_neg hc, ih ht]

theorem all_digits_append_dot (l1 l2 : List Char) :
    (l1 ++ '.' :: l2).all Char.isDigit = false := by
  have hdot : ('.' : Char).isDigit = false := by decide
  simp [List.all_append, List.all_cons, hdot]

theorem padLeft_all_digits (e : Nat) (l : List Char) (h : l.all Char.isDigit = true) :
    (padLeft e l).all Char.isDigit = true := by
  simp only [padLeft, List.all_append, h, Bool.and_true, List.all_eq_true]
  intro x hx
  rw [List.eq_of_mem_replicate hx]
  decide

theorem padLeft_length (e : Nat) (l : List Char) (h : l.length ≤ e) :
    (padLeft e l).length = e := by
  simp only [padLeft, List.length_append, List.length_replicate]
  omega

theorem digitsVal_padLeft (e : Nat) (l : List Char) :
    digitsVal (padLeft e l) = digitsVal l := by
  rw [padLeft, digitsVal_append, digitsVal_replicate_zero]
  simp

theorem normPair_canonical (m e : Nat) :
    (normPair m e).2 = 0 ∨ ¬(10 ∣ (normPair m e).1) := by
  induction e generalizing m with
  | zero => left; rfl
  | succ s ih =>
    rw [normPair]
    by_cases h : m % 10 = 0
    · rw [if_pos h]; exact ih (m / 10)
    · rw [if_neg h]; right; intro hd; exact h (by omega)

theorem floatBody_parse (n e : Nat) (hc : e = 0 ∨ ¬(10 ∣ n)) :
    ∃ a b : List Char,
      floatBody n e = a ++ '.' :: b ∧
      a.all Char.isDigit = true ∧ b.all Char.isDigit = true ∧ a ≠ [] ∧
      normPair (digitsVal (a ++ b)) b.length = (n, e) := by
  by_cases he : e = 0
  · subst he
    refine ⟨natDec n, ['0'], by rw [floatBody, if_pos rfl], natDec_all_digits n,
      by decide, natDec_ne_nil n, ?_⟩
    rw [digitsVal_append, digitsVal_natDec]
    have hz : digitsVal ['0'] = 0 := rfl
    have hlen1 : ([('0' : Char)]).length = 1 := rfl
    rw [hz, hlen1]
    have harith : n * 10 ^ 1 + 0 = 10 * n := by ring
    rw [harith]
    have hstep : normPair (10 * n) 1
        = if (10 * n) % 10 = 0 then normPair (10 * n / 10) 0 else (10 * n, 1) := rfl
    rw [hstep, if_pos (by omega)]
    have h10 : 10 * n / 10 = n := by omega
    rw [h10]
    rfl
  · have hn : ¬(10 ∣ n) := hc.resolve_left he
    have hepos : 1 ≤ e := by omega
    have hmod : n % 10 ^ e < 10 ^ e := Nat.mod_lt _ (by positivity)
    have hlen : (natDec (n % 10 ^ e)).length ≤ e := natDec_length_le _ _ hepos hmod
    refine ⟨natDec (n / 10 ^ e), padLeft e (natDec (n % 10 ^ e)),
      by rw [floatBody, if_neg he], natDec_all_digits _,
      padLeft_all_digits _ _ (natDec_all_digits _), natDec_ne_nil _, ?_⟩
    have hsum : n / 10 ^ e * 10 ^ e + n % 10 ^ e = n := by
      rw [mul_comm]
      exact Nat.div_add_mod n (10 ^ e)
    rw [digitsVal_append, digitsVal_natDec, digitsVal_padLeft, digitsVal_natDec,
      padLeft_length _ _ hlen, hsum]
    obtain ⟨s, rfl⟩ : ∃ s, e = s + 1 := ⟨e - 1, by omega⟩
    rw [normPair, if_neg (by omega)]

theorem parseFloatTail_body (neg : Bool) (a b : List Char)
    (haD : a.all Char.isDigit = true) (hbD : b.all Char.isDigit = true)
    (hane : a ≠ []) :
    parseFloatTail neg (a ++ '.' :: b) = some (mkNorm neg (digitsVal (a ++ b)) b.length) := by
  unfold parseFloatTail
  rw [if_neg (by simp [all_digits_append_dot])]
  rw [splitDot_append a b (not_digit_not_mem haD (by decide)) (not_digit_not_mem hbD (by decide))]
  simp [hane, List.all_append, haD, hbD]

theorem parseFloatChars_cons_neg (t : List Char) :
    parseFloatChars ('-' :: t) = parseFloatTail true t := by
  rw [parseFloatChars, splitSign_neg]

theorem parseFloatChars_cons_digit (c : Char) (t : List Char) (hcd : c.isDigit = true) :
    parseFloatChars (c :: t) = parseFloatTail false (c :: t) := by
  rw [parseFloatChars, splitSign_digit c t hcd]

theorem parseFloatChars_printFloat (v : DecVal) (hc : v.canonical) :
    parseFloatChars (printFloat v) = some v := by
  obtain ⟨neg, n, e⟩ := v
  obtain ⟨a, b, hab, haD, hbD, hane, hnorm⟩ := floatBody_parse n e hc
  have hbody : printFloat ⟨neg, n, e⟩ = (if neg then ['-'] else []) ++ (a ++ '.' :: b) := by
    rw [printFloat, ← hab]
  rw [hbody]
  have hfin : mkNorm neg (digitsVal (a ++ b)) b.length = ⟨neg, n, e⟩ := by
    rw [mkNorm, hnorm]
  cases neg with
  | true =>
    show parseFloatChars ('-' :: (a ++ '.' :: b)) = _
    rw [parseFloatChars_cons_neg, parseFloatTail_body true a b haD hbD hane, hfin]
  | false =>
    rcases a with _ | ⟨c, t⟩
    · exact absurd rfl hane
    · have hcd : c.isDigit = true := by
        have := List.all_eq_true.mp haD c (by simp)
        simpa using this
      show parseFloatChars ((c :: t) ++ '.' :: b) = _
      rw [List.cons_append, parseFloatChars_cons_digit c (t ++ '.' :: b) hcd,
        ← List.cons_append, parseFloatTail_body false (c :: t) b haD hbD hane, hfin]

theorem parseFloatChars_canonical (l : List Char) (v : DecVal)
    (h : parseFloatChars l = some v) : v.canonical := by
  rw [parseFloatChars, parseFloatTail] at h
  split at h
  · obtain rfl : (⟨(splitSign l).1, digitsVal (splitSign l).2, 0⟩ : DecVal) = v :=
      Option.some.inj h
    left; rfl
  · split at h
    · rename_i a b heq
      split at h
      · obtain rfl : mkNorm (splitSign l).1 (digitsVal (a ++ b)) b.length = v :=
          Option.some.inj h
        exact normPair_canonical _ _
      · cases h
    · cases h

theorem parseFloat_floatCellOut (c : String) :
    parseFloatChars (floatCellOut c).data = parseFloatChars c.data := by
  rw [floatCellOut]
  cases h : parseFloatChars c.data with
  | none => rfl
  | some v =>
    show parseFloatChars (printFloat v) = some v
    exact parseFloatChars_printFloat v (parseFloatChars_canonical _ _ h)

theorem parseIntTail_digits (neg : Bool) (l : List Char)
    (hne : l ≠ []) (hD : l.all Char.isDigit = true) :
    parseIntTail neg l
      = some (if neg then -(digitsVal l : Int) else (digitsVal l : Int)) := by
  rw [parseIntTail, if_pos ⟨hne, hD⟩]

theorem parseIntChars_natDec (n : Nat) : parseIntChars (natDec n) = some (n : Int) := by
  have hall := natDec_all_digits n
  have hval := digitsVal_natDec n
  rcases hn : natDec n with _ | ⟨c, t⟩
  · exact absurd hn (natDec_ne_nil n)
  · rw [hn] at hall hval
    have hcd : c.isDigit = true := by
      have := List.all_eq_true.mp hall c (by simp)
      simpa using this
    have hsplit : parseIntChars (c :: t) = parseIntTail false (c :: t) := by
      rw [parseIntChars, splitSign_digit c t hcd]
    rw [hsplit, parseIntTail_digits false (c :: t) (by simp) hall, if_neg (by simp), hval]

theorem parseIntChars_printInt (i : Int) : parseIntChars (printInt i) = some i := by
  rw [printInt]
  by_cases hi : i < 0
  · rw [if_pos hi]
    have hne : natDec i.natAbs ≠ [] := natDec_ne_nil _
    have hall := natDec_all_digits i.natAbs
    have hsplit : parseIntChars ('-' :: natDec i.natAbs)
        = parseIntTail true (natDec i.natAbs) := by
      rw [parseIntChars, splitSign_neg]
    rw [hsplit, parseIntTail_digits true _ hne hall, if_pos rfl, digitsVal_natDec]
    congr 1
    omega
  · rw [if_neg hi, parseIntChars_natDec]
    congr 1
    omega

theorem parseInt_intCellOut (c : String) :
    parseIntChars (intCellOut c).data = parseIntChars c.data := by
  rw [intCellOut]
  cases h : parseIntChars c.data with
  | none => rw [h]
  | some i =>
    show parseIntChars (printInt i) = some i
    exact parseIntChars_printInt i

/-! ## Claim theorems -/

/-- C1: for every non-empty encoded document, the user message block of the
payload built by the Prompt Builder contains, verbatim, the fixed instruction
text stating the asymmetric Fees rule: extract every individual transaction
line item; amounts in a column specifically labeled 'Fees' are excluded from
the output; fee-related transactions appearing as ordinary line items in the
main debit/credit columns are included.  The instruction text is spelled out
literally in the statement below. -/
theorem claim_c1_user_block_verbatim (s : String) (hs : s ≠ "") :
    (generate_openrouter_prompt (some s)).get? 1 =
      some ⟨"user", .parts
        [.text ("Process the attached bank statement. EXTRACT ALL individual transaction line items. CRITICAL INSTRUCTION: If the statement has a column specifically labeled 'Fees', DO NOT use the amounts from that dedicated column in the final 'Amount' column. However, INCLUDE any fee-related transactions (e.g., 'Service Fee', 'ATM Fee') that appear as a separate line item in the main debit/credit columns."),
         .imageUrl ("data:application/pdf;base64," ++ s) "high"]⟩ := by
  rw [generate_openrouter_prompt, if_neg hs]
  rfl

/-- Witness for C1 at a concrete encoded document. -/
theorem claim_c1_witness :
    (generate_openrouter_prompt (some "JVBERg==")).get? 1 =
      some ⟨"user", .parts
        [.text ("Process the attached bank statement. EXTRACT ALL individual transaction line items. CRITICAL INSTRUCTION: If the statement has a column specifically labeled 'Fees', DO NOT use the amounts from that dedicated column in the final 'Amount' column. However, INCLUDE any fee-related transactions (e.g., 'Service Fee', 'ATM Fee') that appear as a separate line item in the main debit/credit columns."),
         .imageUrl ("data:application/pdf;base64," ++ "JVBERg==") "high"]⟩ :=
  claim_c1_user_block_verbatim "JVBERg==" (by decide)

/-- C2: for every non-empty byte sequence `bs`, decoding the Encoder's textual
(base64) output for `bs` yields exactly `bs`. -/
theorem claim_c2_encode_roundtrip (bs : List Nat) (hne : bs ≠ [])
    (hbytes : ∀ b ∈ bs, b < 256) :
    pdf_to_base64 (some bs) = some (b64encode bs) ∧ b64decode (b64encode bs) = bs :=
  ⟨rfl, b64_roundtrip bs hbytes⟩

/-- Witness for C2 at the byte sequence `%PDF`. -/
theorem claim_c2_witness :
    pdf_to_base64 (some [37, 80, 68, 70]) = some (b64encode [37, 80, 68, 70]) ∧
    b64decode (b64encode [37, 80, 68, 70]) = [37, 80, 68, 70] :=
  claim_c2_encode_roundtrip [37, 80, 68, 70] (by decide) (by decide)

/-- C3: `build_prompt` applied to an absent document returns an empty payload;
applied to any non-empty encoded document it returns exactly two message
blocks in the fixed order system-then-user, and the payload contains exactly
one document reference. -/
theorem claim_c3_prompt_shape :
    generate_openrouter_prompt none = [] ∧
    generate_openrouter_prompt (some "") = [] ∧
    ∀ s : String, s ≠ "" →
      (generate_openrouter_prompt (some s)).length = 2 ∧
      (generate_openrouter_prompt (some s)).map Message.role = ["system", "user"] ∧
      docRefCount (generate_openrouter_prompt (some s)) = 1 := by
  refine ⟨rfl, rfl, ?_⟩
  intro s hs
  rw [generate_openrouter_prompt, if_neg hs]
  exact ⟨rfl, rfl, rfl⟩

/-- Witness for C3 at a concrete encoded document. -/
theorem claim_c3_witness :
    (generate_openrouter_prompt (some "JVBERg==")).length = 2 ∧
    (generate_openrouter_prompt (some "JVBERg==")).map Message.role = ["system", "user"] ∧
    docRefCount (generate_openrouter_prompt (some "JVBERg==")) = 1 :=
  claim_c3_prompt_shape.2.2 "JVBERg==" (by decide)

/-- C4: for every payload, when no API credential is configured (the
environment variable is unset, or set to the empty string, both falsy in
Python), the client issues no network call — the effect list carries no
`httpPost` — and surfaces the missing-credential error while returning `None`
to the caller. -/
theorem claim_c4_no_key_no_call (apiKey : Option String) (net : NetResult)
    (h : apiKey = none ∨ apiKey = some "") :
    call_openrouter_api apiKey net = ⟨.ok .null, [.errorMsg configErrorMsg]⟩ := by
  rcases h with rfl | rfl
  · rfl
  · rfl

/-- Witness for C4: unset credential against a would-be-successful response. -/
theorem claim_c4_witness :
    call_openrouter_api none (.response 200 .null) = ⟨.ok .null, [.errorMsg configErrorMsg]⟩ :=
  claim_c4_no_key_no_call none (.response 200 .null) (Or.inl rfl)

theorem transport_ne_shape (cause : String) : transportErrorMsg cause ≠ shapeErrorMsg := by
  intro h
  have h2 := congrArg String.data h
  rw [transportErrorMsg, shapeErrorMsg, String.data_append] at h2
  simp at h2

/-- C5 counterexample: (i) a 2xx response whose body lacks
`choices[0].message.content` because `choices` is an empty array is not
surfaced as a `ResponseShapeError` — the client raises an uncaught
`IndexError` instead (`except KeyError` does not catch it); (ii) a non-2xx
response (status 304) is not surfaced as a `TransportError` —
`raise_for_status` raises only for 4xx/5xx, so the body is dug into and the
shape-error path is taken. -/
theorem claim_c5_counterexample :
    (call_openrouter_api (some "sk-or-key")
        (.response 200 (.obj [("choices", .arr [])]))).retval = .error .indexError ∧
    call_openrouter_api (some "sk-or-key") (.response 304 (.obj [("id", .str "gen-1")])) =
      ⟨.ok .null,
       [.httpPost openrouterUrl, .errorMsg shapeErrorMsg,
        .jsonDump (.obj [("id", .str "gen-1")])]⟩ :=
  ⟨rfl, rfl⟩

/-- C5 (amended): with a configured credential — a raised request exception or
a 4xx/5xx status surfaces the transport-error message carrying the cause or
status and returns `None`; a response not covered by `raise_for_status` whose
body misses the content field through a dictionary `KeyError` surfaces the
shape-error message together with the raw body and returns `None`; a body
whose `choices` entry is an empty array raises an uncaught `IndexError`
instead; and the two surfaced failure messages are distinct. -/
theorem claim_c5_failure_taxonomy
    (k cause : String) (s1 s2 : Nat) (b1 b2 b3 : Json)
    (hk : k ≠ "") (h1 : 400 ≤ s1) (h1b : s1 < 600) (h2 : s2 < 400)
    (hb2 : extractContent b2 = .error .keyError)
    (hb3 : extractContent b3 = .error .indexError) :
    call_openrouter_api (some k) (.netError cause) =
      ⟨.ok .null, [.httpPost openrouterUrl, .errorMsg (transportErrorMsg cause),
                   .infoMsg transportInfoMsg]⟩ ∧
    call_openrouter_api (some k) (.response s1 b1) =
      ⟨.ok .null, [.httpPost openrouterUrl,
                   .errorMsg (transportErrorMsg (httpErrorCause s1)),
                   .infoMsg transportInfoMsg]⟩ ∧
    call_openrouter_api (some k) (.response s2 b2) =
      ⟨.ok .null, [.httpPost openrouterUrl, .errorMsg shapeErrorMsg, .jsonDump b2]⟩ ∧
    call_openrouter_api (some k) (.response s2 b3) =
      ⟨.error .indexError, [.httpPost openrouterUrl]⟩ ∧
    transportErrorMsg cause ≠ shapeErrorMsg := by
  refine ⟨?_, ?_, ?_, ?_, transport_ne_shape cause⟩
  · simp only [call_openrouter_api]
    rw [if_neg hk]
  · simp only [call_openrouter_api]
    rw [if_neg hk, if_pos ⟨h1, h1b⟩]
  · simp only [call_openrouter_api]
    rw [if_neg hk, if_neg (show ¬(400 ≤ s2 ∧ s2 < 600) by omega), hb2]
  · simp only [call_openrouter_api]
    rw [if_neg hk, if_neg (show ¬(400 ≤ s2 ∧ s2 < 600) by omega), hb3]

/-- Witness for the amended C5 at concrete inputs. -/
theorem claim_c5_witness :
    call_openrouter_api (some "sk-or-key") (.netError "connection refused") =
      ⟨.ok .null, [.httpPost openrouterUrl,
                   .errorMsg (transportErrorMsg "connection refused"),
                   .infoMsg transportInfoMsg]⟩ ∧
    call_openrouter_api (some "sk-or-key") (.response 404 .null) =
      ⟨.ok .null, [.httpPost openrouterUrl,
                   .errorMsg (transportErrorMsg (httpErrorCause 404)),
                   .infoMsg transportInfoMsg]⟩ ∧
    call_openrouter_api (some "sk-or-key") (.response 200 (.obj [])) =
      ⟨.ok .null, [.httpPost openrouterUrl, .errorMsg shapeErrorMsg, .jsonDump (.obj [])]⟩ ∧
    call_openrouter_api (some "sk-or-key") (.response 200 (.obj [("choices", .arr [])])) =
      ⟨.error .indexError, [.httpPost openrouterUrl]⟩ ∧
    transportErrorMsg "connection refused" ≠ shapeErrorMsg :=
  claim_c5_failure_taxonomy "sk-or-key" "connection refused" 404 200 .null
    (.obj []) (.obj [("choices", .arr [])])
    (by decide) (by decide) (by decide) (by decide) rfl rfl

/-- C6: for every 2xx response whose JSON body holds the string field
`choices[0].message.content`, the client returns exactly that string,
unmodified, with one outbound request and no other effect. -/
theorem claim_c6_success_verbatim (k s : String) (status : Nat) (body : Json)
    (hk : k ≠ "") (h2a : 200 ≤ status) (h2b : status < 300)
    (hcontent : extractContent body = .ok (.str s)) :
    call_openrouter_api (some k) (.response status body) =
      ⟨.ok (.str s), [.httpPost openrouterUrl]⟩ := by
  simp only [call_openrouter_api]
  rw [if_neg hk, if_neg (show ¬(400 ≤ status ∧ status < 600) by omega), hcontent]

/-- Witness for C6 with a well-shaped body. -/
theorem claim_c6_witness :
    call_openrouter_api (some "sk-or-key")
        (.response 200 (.obj [("choices", .arr [.obj [("message", .obj [("content",
          .str "Date,Description,Amount\n2024-02-01,ATM Fee,-3.00")])]])])) =
      ⟨.ok (.str "Date,Description,Amount\n2024-02-01,ATM Fee,-3.00"),
       [.httpPost openrouterUrl]⟩ :=
  claim_c6_success_verbatim "sk-or-key"
    "Date,Description,Amount\n2024-02-01,ATM Fee,-3.00" 200
    (.obj [("choices", .arr [.obj [("message", .obj [("content",
      .str "Date,Description,Amount\n2024-02-01,ATM Fee,-3.00")])]])])
    (by decide) (by decide) (by decide) rfl

/-- C10 counterexample: a failure path that does not return `None` — on a 2xx
body whose `choices` is an empty array (so `choices[0].message.content` is
missing), the client raises an uncaught `IndexError` rather than returning a
value at all. -/
theorem claim_c10_counterexample :
    (call_openrouter_api (some "sk-or-key")
        (.response 200 (.obj [("choices", .arr [])]))).retval = .error .indexError ∧
    (call_openrouter_api (some "sk-or-key")
        (.response 200 (.obj [("choices", .arr [])]))).retval ≠ .ok .null :=
  ⟨rfl, fun h => Except.noConfusion h⟩

/-- C10 (amended): every returning failure path of the client — missing
credential, request exception, 4xx/5xx status, and a success body whose
content field is missing through a dictionary `KeyError` — returns the very
same value `None`, so the caller cannot distinguish the failure cause from
the returned value.  (A malformed body that fails through list indexing or a
wrong type raises an uncaught exception instead of returning.) -/
theorem claim_c10_failures_return_none
    (k cause : String) (status : Nat) (b1 b2 : Json) (net : NetResult)
    (hk : k ≠ "") (h4 : 400 ≤ status) (h6 : status < 600)
    (hb2 : extractContent b2 = .error .keyError) :
    (call_openrouter_api none net).retval = .ok .null ∧
    (call_openrouter_api (some "") net).retval = .ok .null ∧
    (call_openrouter_api (some k) (.netError cause)).retval = .ok .null ∧
    (call_openrouter_api (some k) (.response status b1)).retval = .ok .null ∧
    (call_openrouter_api (some k) (.response 200 b2)).retval = .ok .null := by
  refine ⟨rfl, rfl, ?_, ?_, ?_⟩
  · simp only [call_openrouter_api]
    rw [if_neg hk]
  · simp only [call_openrouter_api]
    rw [if_neg hk, if_pos ⟨h4, h6⟩]
  · simp only [call_openrouter_api]
    rw [if_neg hk, if_neg (show ¬(400 ≤ 200 ∧ 200 < 600) by omega), hb2]

/-- Witness for the amended C10 at concrete inputs. -/
theorem claim_c10_witness :
    (call_openrouter_api none (.response 200 .null)).retval = .ok .null ∧
    (call_openrouter_api (some "") (.response 200 .null)).retval = .ok .null ∧
    (call_openrouter_api (some "sk-or-key") (.netError "connection refused")).retval
        = .ok .null ∧
    (call_openrouter_api (some "sk-or-key") (.response 500 .null)).retval = .ok .null ∧
    (call_openrouter_api (some "sk-or-key") (.response 200 (.obj []))).retval = .ok .null :=
  claim_c10_failures_return_none "sk-or-key" "connection refused" 500 .null (.obj [])
    (.response 200 .null) (by decide) (by decide) (by decide) rfl

/-- C7: `interpret` applied to the text with header line
`Date,Description,Amount` followed by the rows `2024-01-05,Grocery Store,-54.32`
and `2024-01-06,Payroll Deposit,1500.00` returns exactly two rows in that
order; the Amount cells parse as numbers, the first negative and the second
positive. -/
theorem claim_c7_two_rows :
    interpret "Date,Description,Amount\n2024-01-05,Grocery Store,-54.32\n2024-01-06,Payroll Deposit,1500.00" =
      .ok ⟨["Date", "Description", "Amount"],
        [["2024-01-05", "Grocery Store", "-54.32"],
         ["2024-01-06", "Payroll Deposit", "1500.00"]]⟩ ∧
    parseFloatChars "-54.32".data = some ⟨true, 5432, 2⟩ ∧
    parseFloatChars "1500.00".data = some ⟨false, 1500, 0⟩ ∧
    (⟨true, 5432, 2⟩ : DecVal).toRat < 0 ∧
    (0 : ℚ) < (⟨false, 1500, 0⟩ : DecVal).toRat := by
  refine ⟨rfl, rfl, rfl, ?_, ?_⟩
  · norm_num [DecVal.toRat]
  · norm_num [DecVal.toRat]

/-- C8 counterexample: the end-to-end example row `2024-02-01,ATM Fee,-3.00`
parses successfully, but re-serializing the parsed table rewrites the Amount
field `-3.00` as `-3.0` — the output is not byte-for-byte the parsed field
values. -/
theorem claim_c8_counterexample :
    interpret "Date,Description,Amount\n2024-02-01,ATM Fee,-3.00" =
      .ok ⟨["Date", "Description", "Amount"], [["2024-02-01", "ATM Fee", "-3.00"]]⟩ ∧
    to_csv ⟨["Date", "Description", "Amount"], [["2024-02-01", "ATM Fee", "-3.00"]]⟩ =
      "Date,Description,Amount\n2024-02-01,ATM Fee,-3.0\n" ∧
    to_csv ⟨["Date", "Description", "Amount"], [["2024-02-01", "ATM Fee", "-3.00"]]⟩ ≠
      "Date,Description,Amount\n2024-02-01,ATM Fee,-3.00\n" := by
  refine ⟨rfl, rfl, ?_⟩
  decide

/-- C8 (amended): for every raw text that `interpret` parses successfully,
re-serialization reproduces the cells of non-numeric (object-typed) columns
byte-for-byte; the cells of numeric-typed columns are reproduced only up to
numeric value — they are reparsed into the column's number type and reprinted
from the parsed value, so trailing zeros are not preserved byte-for-byte. -/
theorem claim_c8_value_roundtrip
    (raw : String) (df : DataFrame) (j : Nat) (c : String)
    (hok : interpret raw = .ok df) (hc : c ∈ colCells df.rows j) :
    (colIsInt df.rows j = false → colIsFloat df.rows j = false →
      cellOut df.rows j c = c) ∧
    (colIsInt df.rows j = true →
      (parseIntChars c.data).isSome = true ∧
      parseIntChars (cellOut df.rows j c).data = parseIntChars c.data) ∧
    (colIsInt df.rows j = false → colIsFloat df.rows j = true →
      parseFloatChars (cellOut df.rows j c).data = parseFloatChars c.data) := by
  refine ⟨?_, ?_, ?_⟩
  · intro h1 h2
    rw [cellOut, if_neg (by simp [h1]), if_neg (by simp [h2])]
  · intro h1
    rw [colIsInt, Bool.and_eq_true] at h1
    have hint : isIntCell c = true := List.all_eq_true.mp h1.2 c hc
    refine ⟨by simpa [isIntCell] using hint, ?_⟩
    rw [cellOut, if_pos (by rw [colIsInt, Bool.and_eq_true]; exact h1)]
    exact parseInt_intCellOut c
  · intro h1 h2
    rw [cellOut, if_neg (by simp [h1]), if_pos h2]
    exact parseFloat_floatCellOut c

/-- Witness for the amended C8: the Amount cell `-3.00` of the parsed example
table is reprinted to the same numeric value. -/
theorem claim_c8_witness :
    parseFloatChars (cellOut [["2024-02-01", "ATM Fee", "-3.00"]] 2 "-3.00").data
      = parseFloatChars "-3.00".data :=
  (claim_c8_value_roundtrip "Date,Description,Amount\n2024-02-01,ATM Fee,-3.00"
      ⟨["Date", "Description", "Amount"], [["2024-02-01", "ATM Fee", "-3.00"]]⟩ 2 "-3.00"
      rfl (by decide)).2.2 (by decide) (by decide)

/-- C9: `interpret` applied to non-tabular free text (a typical two-line error
message whose second line has more comma-separated fields than the first)
yields the parser-error value; the caller-side flow catches it — the emitted
effects end in a warning rather than an escaped exception — and the raw text
remains displayed (the `codeBlock` effect precedes the parse attempt). -/
theorem claim_c9_free_text_parse_error :
    interpret "OpenRouter API Request Failed: 401 Client Error\nCheck if your API key is valid, the model is correct, or if you have hit a rate limit." =
      .error .parserError ∧
    render_results "statement.pdf"
        "OpenRouter API Request Failed: 401 Client Error\nCheck if your API key is valid, the model is correct, or if you have hit a rate limit." =
      [.subheader "Extracted Transactions (CSV Format)",
       .codeBlock "OpenRouter API Request Failed: 401 Client Error\nCheck if your API key is valid, the model is correct, or if you have hit a rate limit.",
       .warning (warnPrefix ++ csvErrorText .parserError)] :=
  ⟨rfl, rfl⟩

end BankApp
